import Mathlib

/-!
Shallow embedding of `imgcmp-rs` (src/main.rs), a pixel-wise image comparator.

Modelling conventions:
* `u8` channel values and `u32` coordinates/counters are modelled as `Nat`.
  None of the modelled quantities can overflow their machine width for the
  image sizes representable by the program (counters are bounded by the
  pixel count), so no wraparound modulus is inserted.
* `f32` ratio arithmetic (`Threshold::Ratio` and its resolution) is modelled
  by exact rational arithmetic over `ℚ`; the `as u32` cast of a finite
  non-negative float truncates toward zero, modelled by `Int.toNat ∘ ⌊·⌋`
  (which also captures the saturation of negative values to `0`).
* An image (`image::RgbImage`) is a width, a height and a total pixel
  function; only coordinates `x < width`, `y < height` correspond to cells
  of the underlying buffer.
* Console output (`println!`) is modelled as a list of abstract output
  events so that verbosity-dependent behaviour is observable in the model.
* File I/O (reading the two images, saving the error image) is outside the
  embedding: `run` is modelled from the point where both images are decoded,
  and "the error image is written" is modelled by the `error_img` field
  being `some _` exactly when an output path is configured.
-/

/-- One RGB pixel: three 8-bit channel values (modelled as `Nat`). -/
structure Rgb where
  r : Nat
  g : Nat
  b : Nat
deriving DecidableEq

/-- Channel selector for the three components of an `Rgb` pixel. -/
inductive Channel where
  | r
  | g
  | b
deriving DecidableEq

/-- Project one channel out of a pixel. -/
def Rgb.channel : Rgb → Channel → Nat
  | p, Channel.r => p.r
  | p, Channel.g => p.g
  | p, Channel.b => p.b

/-- An `image::RgbImage`: dimensions plus the pixel grid, modelled as a total
function; cells with `x < width` and `y < height` are the buffer's cells. -/
structure Image where
  width : Nat
  height : Nat
  pixel : Nat → Nat → Rgb

/-- `Threshold` from src/main.rs: either an absolute pixel count or a ratio
of the total pixel count. The `f32` ratio is modelled as an exact `ℚ`. -/
inductive Threshold where
  | Absolute (value : Nat)
  | Ratio (ratio : ℚ)
deriving DecidableEq

/-- `Threshold::get_actual_threshold`: given the image size, return the
threshold in number of pixels. `Absolute` returns the stored value; `Ratio`
computes `(ratio * (w * h) as f32) as u32`, modelled exactly over `ℚ` with
the cast's truncation toward zero (and saturation of negatives to 0) given
by `Int.toNat ∘ Int.floor`. -/
def Threshold.get_actual_threshold : Threshold → Nat × Nat → Nat
  | Threshold.Absolute value, _ => value
  | Threshold.Ratio ratio, image_size =>
      (⌊ratio * ((image_size.1 * image_size.2 : Nat) : ℚ)⌋).toNat

/-- `Verbosity` from src/main.rs: a wrapped `i32`, ordered by its value. -/
structure Verbosity where
  level : Int
deriving DecidableEq

/-- `Verbosity::SILENT`: nothing should be printed. -/
def Verbosity.SILENT : Verbosity := ⟨0⟩

/-- `Verbosity::DEFAULT`. -/
def Verbosity.DEFAULT : Verbosity := ⟨1⟩

/-- `Verbosity::VERBOSE`: print extra information. -/
def Verbosity.VERBOSE : Verbosity := ⟨2⟩

instance : LT Verbosity := ⟨fun a b => a.level < b.level⟩

instance (a b : Verbosity) : Decidable (a < b) :=
  inferInstanceAs (Decidable (a.level < b.level))

/-- The comparison options (`Options` in src/main.rs). `output` keeps only
the path's presence and value; the file system itself is not modelled. -/
structure Options where
  value_threshold : Nat
  error_threshold : Threshold
  output : Option String
  verbosity : Verbosity

/-- `u8::abs_diff`: absolute difference of two channel values. -/
def abs_diff (a b : Nat) : Nat := max a b - min a b

/-- The remapping `128 | diff >> 1` applied to a divergent channel's error
value in src/main.rs line 129 (shift binds tighter than bit-or in Rust). -/
def remap (diff : Nat) : Nat := 128 ||| (diff >>> 1)

/-- The per-channel computation of the scan closure (src/main.rs 125-133):
the absolute difference is remapped if it exceeds the value threshold and
snapped to 0 otherwise. -/
def diff_channel (value_threshold v1 v2 : Nat) : Nat :=
  let diff := abs_diff v1 v2
  if diff > value_threshold then remap diff else 0

/-- `is_pixel_different` of the scan closure: a pair of pixels is mismatched
if their difference exceeds the threshold in any channel. -/
def is_pixel_different (value_threshold : Nat) (pixel1 pixel2 : Rgb) : Bool :=
  decide (abs_diff pixel1.r pixel2.r > value_threshold) ||
  decide (abs_diff pixel1.g pixel2.g > value_threshold) ||
  decide (abs_diff pixel1.b pixel2.b > value_threshold)

/-- The coordinates visited by the nested scan loops
`for x in 0..w { for y in 0..h { ... } }`, in visit order. -/
def coords (w h : Nat) : List (Nat × Nat) :=
  (List.range w).flatMap fun x => (List.range h).map fun y => (x, y)

/-- `wrong_pixels`: the number of pixels that differ by more than the value
threshold in at least one channel. -/
def wrong_pixels (img1 img2 : Image) (value_threshold : Nat) : Nat :=
  (coords img1.width img1.height).countP fun c =>
    is_pixel_different value_threshold (img1.pixel c.1 c.2) (img2.pixel c.1 c.2)

/-- `error_img` as populated by the scan loop: each buffer cell holds the
per-channel `diff_channel` values of the corresponding input pixels. -/
def error_image (img1 img2 : Image) (value_threshold : Nat) : Image :=
  { width := img1.width
    height := img1.height
    pixel := fun x y =>
      { r := diff_channel value_threshold (img1.pixel x y).r (img2.pixel x y).r
        g := diff_channel value_threshold (img1.pixel x y).g (img2.pixel x y).g
        b := diff_channel value_threshold (img1.pixel x y).b (img2.pixel x y).b } }

/-- Value of a list of ASCII digit characters read in base 10. -/
def digitsToNat (ds : List Char) : Nat :=
  ds.foldl (fun a c => 10 * a + (c.toNat - 48)) 0

/-- Model of Rust's `str::parse::<u32>`: an optional leading `+` followed by
one or more ASCII digits, rejecting values outside the `u32` range. A leading
`-` is not a digit, so negative inputs fail. -/
def parse_u32 (s : String) : Option Nat :=
  let cs := s.data
  let ds := if cs.head? = some '+' then cs.tail else cs
  if ds ≠ [] ∧ ds.all Char.isDigit then
    if digitsToNat ds < 2 ^ 32 then some (digitsToNat ds) else none
  else none

/-- Model of Rust's `str::parse::<f32>` restricted to finite decimal
numbers, with the parsed value kept as an exact `ℚ` instead of being rounded
to the nearest `f32`. The accepted grammar follows Rust:
`[+-]? (digit+ | digit+ . digit* | digit* . digit+) ([eE] [+-]? digit+)?`.
The special forms `inf`, `infinity` and `nan` (not representable in `ℚ`)
are outside the model. -/
def parse_f32 (s : String) : Option ℚ :=
  let cs := s.data
  let (sign, cs1) :=
    match cs with
    | '-' :: rest => ((-1 : ℚ), rest)
    | '+' :: rest => ((1 : ℚ), rest)
    | _ => ((1 : ℚ), cs)
  let intDs := cs1.takeWhile Char.isDigit
  let cs2 := cs1.dropWhile Char.isDigit
  let (fracDs, cs3) :=
    match cs2 with
    | '.' :: rest => (rest.takeWhile Char.isDigit, rest.dropWhile Char.isDigit)
    | _ => (([] : List Char), cs2)
  if intDs = [] ∧ fracDs = [] then none
  else
    let mantissa : ℚ :=
      (digitsToNat intDs : ℚ) + (digitsToNat fracDs : ℚ) / (10 : ℚ) ^ fracDs.length
    match cs3 with
    | [] => some (sign * mantissa)
    | c :: rest =>
      if c = 'e' ∨ c = 'E' then
        let (expNeg, rest1) :=
          match rest with
          | '-' :: r => (true, r)
          | '+' :: r => (false, r)
          | _ => (false, rest)
        let expDs := rest1.takeWhile Char.isDigit
        let rest2 := rest1.dropWhile Char.isDigit
        if expDs = [] ∨ rest2 ≠ [] then none
        else
          some (sign * (if expNeg then
            mantissa / (10 : ℚ) ^ digitsToNat expDs
          else
            mantissa * (10 : ℚ) ^ digitsToNat expDs))
      else none

/-- `impl TryFrom<&str> for Threshold` (src/main.rs 27-38): a string ending
with `%` is parsed as a float percentage and divided by 100 to form a
`Ratio`; otherwise the string is parsed as a `u32` to form an `Absolute`.
Parse failures propagate (`none`). -/
def Threshold.try_from (value : String) : Option Threshold :=
  if value.endsWith "%" then
    (parse_f32 (value.dropRight 1)).map fun p => Threshold.Ratio (p / 100)
  else
    (parse_u32 value).map Threshold.Absolute

/-- The observable console output of `run`, with the formatted text of each
`println!` abstracted to the data it prints. -/
inductive OutputEvent where
  | sizeMismatch (size1 size2 : Nat × Nat)
  | verdict (mismatch : Bool)
  | differentPixels (wrong total : Nat)
deriving DecidableEq

/-- The observable outcome of `run`: the returned boolean, the mismatch
counter, the saved error image (`some` exactly when an output path was
given), and the console output. On the different-size early return the
counter field is 0 (the source never computes it on that path). -/
structure RunOutcome where
  matched : Bool
  wrong_pixels : Nat
  error_img : Option Image
  printed : List OutputEvent

/-- `run` from src/main.rs, modelled from the point where both images are
decoded: dimension check with early non-match return, threshold resolution,
per-pixel scan, error-image save, verdict, and verbosity-gated printing. -/
def run (img1 img2 : Image) (options : Options) : RunOutcome :=
  let size1 := (img1.width, img1.height)
  let size2 := (img2.width, img2.height)
  if size1 ≠ size2 then
    { matched := false
      wrong_pixels := 0
      error_img := none
      printed := if Verbosity.SILENT < options.verbosity then
          [OutputEvent.sizeMismatch size1 size2] else [] }
  else
    let size := size1
    let value_threshold := options.value_threshold
    let error_thresold := options.error_threshold.get_actual_threshold size
    let wp := wrong_pixels img1 img2 value_threshold
    let mismatch := decide (wp > error_thresold)
    { matched := !mismatch
      wrong_pixels := wp
      error_img := (options.output).map fun _ =>
        error_image img1 img2 value_threshold
      printed := if Verbosity.SILENT < options.verbosity then
          OutputEvent.verdict mismatch ::
            (if options.verbosity = Verbosity.VERBOSE then
              [OutputEvent.differentPixels wp (size.1 * size.2)] else [])
        else [] }

/-- Test image: 2×2, all channels 0 except pixel (0,0) whose red channel is
10 (the scenario of spec §8). -/
def imgA : Image :=
  ⟨2, 2, fun x y => if x = 0 ∧ y = 0 then ⟨10, 0, 0⟩ else ⟨0, 0, 0⟩⟩

/-- Test image: 2×2, all black. -/
def imgB : Image := ⟨2, 2, fun _ _ => ⟨0, 0, 0⟩⟩

/-- Test image: 1×2, all black (differs from `imgB` only in dimensions). -/
def imgC : Image := ⟨1, 2, fun _ _ => ⟨0, 0, 0⟩⟩

/-- The scan visits exactly `width * height` coordinates. -/
theorem coords_length (w h : Nat) : (coords w h).length = w * h := by
  induction w with
  | zero => simp [coords]
  | succ n ih =>
    simp only [coords, List.range_succ, List.flatMap_append] at *
    simp [ih, Nat.succ_mul]

/-- Bitwise-or with 128 is addition on values below 128 (bit 7 is free). -/
theorem lor_128_eq_add : ∀ z < 128, 128 ||| z = 128 + z := by decide

/-- Halving an 8-bit value keeps it at most 127. -/
theorem shiftRight_one_le (d : Nat) (hd : d ≤ 255) : d >>> 1 ≤ 127 := by
  rw [Nat.shiftRight_eq_div_pow]
  omega

/-- Claim C1: for equal-sized images and any config, the comparison result is
a match if and only if the mismatched pixel count is at most the resolved
error threshold (so a count equal to the threshold matches, and a count of
threshold + 1 does not). -/
theorem run_match_iff (img1 img2 : Image) (options : Options)
    (hw : img1.width = img2.width) (hh : img1.height = img2.height) :
    (run img1 img2 options).matched = true ↔
      wrong_pixels img1 img2 options.value_threshold ≤
        options.error_threshold.get_actual_threshold (img1.width, img1.height) := by
  have hsz : ((img1.width, img1.height) : Nat × Nat) = (img2.width, img2.height) := by
    rw [hw, hh]
  simp only [run, if_neg (not_not_intro hsz)]
  simp [Nat.not_lt]

/-- Claim C1 witness: 2×2 images differing in one pixel, threshold 5 and
error threshold Absolute 1: one mismatched pixel, so the result is a match. -/
theorem run_match_iff_witness :
    (run imgA imgB ⟨5, Threshold.Absolute 1, none, Verbosity.DEFAULT⟩).matched = true :=
  (run_match_iff imgA imgB ⟨5, Threshold.Absolute 1, none, Verbosity.DEFAULT⟩ rfl rfl).mpr
    (by decide)

/-- Claim C2: when the dimensions differ, the run is a non-match with no
diff image and a zero mismatch counter, whatever the options are. -/
theorem run_size_mismatch (img1 img2 : Image) (options : Options)
    (h : ((img1.width, img1.height) : Nat × Nat) ≠ (img2.width, img2.height)) :
    (run img1 img2 options).matched = false ∧
    (run img1 img2 options).wrong_pixels = 0 ∧
    (run img1 img2 options).error_img = none := by
  simp only [run, if_pos h]
  exact ⟨trivial, trivial, trivial⟩

/-- Claim C2 witness: a 2×2 image against a 1×2 image is an immediate
non-match with no diff image. -/
theorem run_size_mismatch_witness :
    (run imgB imgC ⟨0, Threshold.Absolute 0, none, Verbosity.DEFAULT⟩).matched = false ∧
    (run imgB imgC ⟨0, Threshold.Absolute 0, none, Verbosity.DEFAULT⟩).wrong_pixels = 0 ∧
    (run imgB imgC ⟨0, Threshold.Absolute 0, none, Verbosity.DEFAULT⟩).error_img = none :=
  run_size_mismatch imgB imgC ⟨0, Threshold.Absolute 0, none, Verbosity.DEFAULT⟩ (by decide)

/-- Claim C3: for any channel of any in-range pixel of the diff image, with
`d` the absolute channel difference: the stored value is 0 when `d ≤ t`, and
`128 ||| (d >>> 1)` when `d > t`, which lies in [128, 255] for `d ≤ 255`; in
particular `d = t + 1` is stored as `128 ||| ((t + 1) >>> 1)`. -/
theorem error_image_channel_spec (img1 img2 : Image) (t x y d : Nat) (c : Channel)
    (_hx : x < img1.width) (_hy : y < img1.height)
    (hd : d = abs_diff ((img1.pixel x y).channel c) ((img2.pixel x y).channel c)) :
    (d ≤ t → ((error_image img1 img2 t).pixel x y).channel c = 0) ∧
    (t < d → ((error_image img1 img2 t).pixel x y).channel c = 128 ||| (d >>> 1)) ∧
    (t < d → d ≤ 255 → 128 ≤ ((error_image img1 img2 t).pixel x y).channel c ∧
      ((error_image img1 img2 t).pixel x y).channel c ≤ 255) ∧
    (d = t + 1 → ((error_image img1 img2 t).pixel x y).channel c = 128 ||| ((t + 1) >>> 1)) := by
  have hval : ((error_image img1 img2 t).pixel x y).channel c =
      if t < d then 128 ||| (d >>> 1) else 0 := by
    cases c <;> simp [error_image, Rgb.channel, diff_channel, remap, hd]
  refine ⟨?_, ?_, ?_, ?_⟩
  · intro hle
    rw [hval, if_neg (Nat.not_lt.mpr hle)]
  · intro hlt
    rw [hval, if_pos hlt]
  · intro hlt hle
    rw [hval, if_pos hlt, lor_128_eq_add _ (Nat.lt_succ_of_le (shiftRight_one_le d hle))]
    have := shiftRight_one_le d hle
    omega
  · intro heq
    rw [hval, if_pos (heq ▸ Nat.lt_succ_self t), heq]

/-- Claim C3 witness: with threshold 5, a red-channel difference of 10 is
stored as `128 ||| (10 >>> 1)` (= 133) in the diff image. -/
theorem error_image_channel_spec_witness :
    ((error_image imgA imgB 5).pixel 0 0).channel Channel.r = 128 ||| (10 >>> 1) :=
  ((error_image_channel_spec imgA imgB 5 0 0 10 Channel.r (by decide) (by decide)
    (by decide)).2.1) (by decide)

/-- Claim C4: `Absolute n` resolves to `n` for every image size, and for a
non-negative ratio `r` the resolved value of `Ratio r` is the floor of
`r * (width * height)` (stated by the two floor inequalities); in particular
`Ratio (1/2)` on 10×10 resolves to 50 and `Ratio (33/100)` on 10×10 resolves
to 33. -/
theorem get_actual_threshold_spec (n : Nat) (sz : Nat × Nat) (r : ℚ) (w h : Nat)
    (hr : 0 ≤ r) :
    (Threshold.Absolute n).get_actual_threshold sz = n ∧
    (((Threshold.Ratio r).get_actual_threshold (w, h) : ℚ) ≤ r * ((w * h : Nat) : ℚ) ∧
      r * ((w * h : Nat) : ℚ) < ((Threshold.Ratio r).get_actual_threshold (w, h) : ℚ) + 1) ∧
    (Threshold.Ratio (1/2)).get_actual_threshold (10, 10) = 50 ∧
    (Threshold.Ratio (33/100)).get_actual_threshold (10, 10) = 33 := by
  have hx : (0:ℚ) ≤ r * ((w * h : Nat) : ℚ) := mul_nonneg hr (by positivity)
  have hfl : (0:ℤ) ≤ ⌊r * ((w * h : Nat) : ℚ)⌋ := Int.floor_nonneg.mpr hx
  have hcast : (((Threshold.Ratio r).get_actual_threshold (w, h) : Nat) : ℚ) =
      ((⌊r * ((w * h : Nat) : ℚ)⌋ : ℤ) : ℚ) := by
    simp only [Threshold.get_actual_threshold]
    exact_mod_cast congrArg (fun z : ℤ => (z : ℚ)) (Int.toNat_of_nonneg hfl)
  refine ⟨rfl, ⟨?_, ?_⟩, by with_unfolding_all rfl, by with_unfolding_all rfl⟩
  · rw [hcast]
    exact Int.floor_le _
  · rw [hcast]
    exact Int.lt_floor_add_one _

/-- Claim C4 witness: `Ratio (33/100)` on a 10×10 image resolves to 33. -/
theorem get_actual_threshold_spec_witness :
    (Threshold.Ratio (33/100)).get_actual_threshold (10, 10) = 33 :=
  (get_actual_threshold_spec 0 (0, 0) (33/100) 10 10 (by norm_num)).2.2.2

/-- Claim C5: for fixed inputs the mismatched pixel count is antitone in the
channel threshold: raising the threshold never increases the count. -/
theorem wrong_pixels_antitone (img1 img2 : Image) (t1 t2 : Nat) (h : t1 ≤ t2) :
    wrong_pixels img1 img2 t2 ≤ wrong_pixels img1 img2 t1 := by
  unfold wrong_pixels
  apply List.countP_mono_left
  intro c _ hc
  simp only [is_pixel_different, Bool.or_eq_true, decide_eq_true_eq] at hc ⊢
  rcases hc with (h1 | h2) | h3
  · exact Or.inl (Or.inl (lt_of_le_of_lt h h1))
  · exact Or.inl (Or.inr (lt_of_le_of_lt h h2))
  · exact Or.inr (lt_of_le_of_lt h h3)

/-- Claim C5 witness: raising the threshold from 5 to 11 does not increase
the count on the test images. -/
theorem wrong_pixels_antitone_witness :
    wrong_pixels imgA imgB 11 ≤ wrong_pixels imgA imgB 5 :=
  wrong_pixels_antitone imgA imgB 5 11 (by decide)

/-- Claim C6: comparing any image against itself gives a mismatch count of 0
and a match, for every configuration. -/
theorem run_self_match (img : Image) (options : Options) :
    (run img img options).wrong_pixels = 0 ∧ (run img img options).matched = true := by
  have hwp : wrong_pixels img img options.value_threshold = 0 := by
    simp [wrong_pixels, is_pixel_different, abs_diff]
  simp only [run, if_neg (not_not_intro rfl)]
  simp [hwp]

/-- Claim C7: two runs that differ only in verbosity produce the same
boolean result, the same mismatch counter and the same diff image; verbosity
influences only the printed output. -/
theorem run_verbosity_independent (img1 img2 : Image) (t : Nat) (e : Threshold)
    (o : Option String) (v1 v2 : Verbosity) :
    (run img1 img2 ⟨t, e, o, v1⟩).matched = (run img1 img2 ⟨t, e, o, v2⟩).matched ∧
    (run img1 img2 ⟨t, e, o, v1⟩).wrong_pixels = (run img1 img2 ⟨t, e, o, v2⟩).wrong_pixels ∧
    (run img1 img2 ⟨t, e, o, v1⟩).error_img = (run img1 img2 ⟨t, e, o, v2⟩).error_img := by
  by_cases h : ((img1.width, img1.height) : Nat × Nat) = (img2.width, img2.height)
  · simp only [run, if_neg (not_not_intro h)]
    exact ⟨trivial, trivial, trivial⟩
  · simp only [run, if_pos h]
    exact ⟨trivial, trivial, trivial⟩

/-- A leading minus sign makes the `u32` parser fail. -/
theorem parse_u32_none_of_head_neg (s : String) (h : s.data.head? = some '-') :
    parse_u32 s = none := by
  obtain ⟨tl, htl⟩ : ∃ tl, s.data = '-' :: tl := by
    cases hd : s.data with
    | nil => rw [hd] at h; exact absurd h (by simp)
    | cons ch tl =>
      rw [hd] at h
      simp only [List.head?_cons, Option.some.injEq] at h
      exact ⟨tl, by rw [h]⟩
  unfold parse_u32
  rw [htl]
  simp [show ('-').isDigit = false from rfl]

/-- Claim C8: a string ending in `%` whose prefix parses as a float `p`
yields `Ratio (p / 100)`; a string not ending in `%` that parses as a `u32`
yields `Absolute n`; any parse failure (in particular a leading minus sign
without a `%` suffix) is an error. -/
theorem try_from_spec (s : String) (p : ℚ) (n : Nat) :
    (s.endsWith "%" = true → parse_f32 (s.dropRight 1) = some p →
      Threshold.try_from s = some (Threshold.Ratio (p / 100))) ∧
    (s.endsWith "%" = true → parse_f32 (s.dropRight 1) = none →
      Threshold.try_from s = none) ∧
    (s.endsWith "%" = false → parse_u32 s = some n →
      Threshold.try_from s = some (Threshold.Absolute n)) ∧
    (s.endsWith "%" = false → parse_u32 s = none →
      Threshold.try_from s = none) ∧
    (s.endsWith "%" = false → s.data.head? = some '-' →
      Threshold.try_from s = none) := by
  refine ⟨?_, ?_, ?_, ?_, ?_⟩
  · intro h1 h2
    simp [Threshold.try_from, h1, h2]
  · intro h1 h2
    simp [Threshold.try_from, h1, h2]
  · intro h1 h2
    simp [Threshold.try_from, h1, h2]
  · intro h1 h2
    simp [Threshold.try_from, h1, h2]
  · intro h1 h2
    simp [Threshold.try_from, h1, parse_u32_none_of_head_neg s h2]

/-- Claim C8 witness: "50%" parses to `Ratio (50 / 100)` and "-5" fails. -/
theorem try_from_spec_witness :
    Threshold.try_from "50%" = some (Threshold.Ratio ((50 : ℚ) / 100)) ∧
    Threshold.try_from "-5" = none :=
  ⟨(try_from_spec "50%" 50 0).1 (by with_unfolding_all rfl) (by with_unfolding_all rfl),
   (try_from_spec "-5" 0 0).2.2.2.2 (by with_unfolding_all rfl) (by with_unfolding_all rfl)⟩

/-- Claim C9: for an 8-bit difference `d ≤ 255`, the remapping
`128 ||| (d >>> 1)` used by the code equals the `128 + (d >>> 1)` of the
spec. -/
theorem remap_lor_eq_add (d : Nat) (hd : d ≤ 255) : remap d = 128 + (d >>> 1) := by
  unfold remap
  exact lor_128_eq_add _ (Nat.lt_succ_of_le (shiftRight_one_le d hd))

/-- Claim C9 witness: the two formulas agree at the extreme value 255. -/
theorem remap_lor_eq_add_witness : remap 255 = 128 + (255 >>> 1) :=
  remap_lor_eq_add 255 (by decide)

/-- Claim C10: the mismatched pixel count reported by a run never exceeds
`width * height`: each pixel contributes at most once, even with several
divergent channels. -/
theorem run_wrong_pixels_le (img1 img2 : Image) (options : Options) :
    (run img1 img2 options).wrong_pixels ≤ img1.width * img1.height := by
  by_cases h : ((img1.width, img1.height) : Nat × Nat) = (img2.width, img2.height)
  · simp only [run, if_neg (not_not_intro h)]
    calc (coords img1.width img1.height).countP _ ≤ (coords img1.width img1.height).length :=
          List.countP_le_length _
      _ = img1.width * img1.height := coords_length _ _
  · simp only [run, if_pos h]
    exact Nat.zero_le _
